import Mathlib

/-!
Shallow embedding of the job-orchestration layer of the ps-ai-diffusion
plugin: the generation panel (snapshot building, input capture, request
construction, polling, cancellation, queue advancement, history recording)
together with the queue operations of the generation context and the
style/sampler utility functions. External collaborators (the Photoshop
editor and the remote backend) are modelled as an explicit per-job
environment of oracle answers.
-/

namespace Psai

/-! Data model, translated from the plugin type declarations. -/

structure Style where
  id : String
  name : String
  architecture : String
  sampler : String
  cfg_scale : Rat
  steps : Nat
  style_prompt : String
  negative_prompt : String
  checkpoints : List String
deriving Repr, DecidableEq

inductive InpaintMode
  | automatic
  | fill
  | expand
  | add_object
  | remove_object
  | replace_background
  | custom
deriving Repr, DecidableEq

inductive InpaintFillMode
  | none
  | neutral
  | blur
  | border
  | inpaint
deriving Repr, DecidableEq

inductive InpaintContextMode
  | automatic
  | mask_bounds
  | entire_image
deriving Repr, DecidableEq

structure LoraItem where
  id : String
  name : String
  strength : Rat
deriving Repr, DecidableEq

structure ControlLayer where
  id : String
  mode : String
  layerId : Option Int
  layerName : String
  image : Option String
  strength : Rat
  rangeStart : Option Rat
  rangeEnd : Option Rat
  isEnabled : Bool
  isPreprocessor : Bool
deriving Repr, DecidableEq

inductive RegionMaskSource
  | selection
  | layer
deriving Repr, DecidableEq

structure RegionBounds where
  x : Int
  y : Int
  width : Int
  height : Int
deriving Repr, DecidableEq

structure Region where
  id : String
  name : String
  prompt : String
  layerId : Option Int
  maskSource : RegionMaskSource
  maskBase64 : Option String
  bounds : Option RegionBounds
  isVisible : Bool
deriving Repr, DecidableEq

structure GenerationSnapshot where
  prompt : String
  negativePrompt : String
  strength : Nat
  inpaintMode : InpaintMode
  inpaintFill : InpaintFillMode
  inpaintContext : InpaintContextMode
  batchSize : Nat
  seed : Int
  fixedSeed : Bool
  style : Option Style
  width : Nat
  height : Nat
  steps : Nat
  cfgScale : Rat
  sampler : String
  scheduler : String
  useStyleDefaults : Bool
  loras : List LoraItem
  controlLayers : List ControlLayer
  regions : List Region
deriving Repr, DecidableEq

structure QueueItem where
  id : String
  createdAt : String
  snapshot : GenerationSnapshot
deriving Repr, DecidableEq

structure HistoryImage where
  index : Nat
  thumbnail : String
  applied : Bool
  seed : Option Int
deriving Repr, DecidableEq

structure HistoryGroup where
  job_id : String
  timestamp : String
  prompt : String
  negative_prompt : String
  strength : Nat
  style_id : String
  images : List HistoryImage
deriving Repr, DecidableEq

/-! JS value helpers. -/

/-- Truthiness of a JS string-or-null value: null and the empty string are falsy. -/
def strTruthy : Option String → Bool
  | some s => s != ""
  | none => false

/-- The expression x or-else undefined applied to a string-or-null value. -/
def orUndefined (m : Option String) : Option String :=
  if strTruthy m then m else none

/-- Truthiness of a JS number-or-null value: null and 0 are falsy. -/
def intTruthy : Option Int → Bool
  | some n => n != 0
  | none => false

/-- JS String.prototype.trim: strip whitespace from both ends, written by
structural recursion over the character list so that it evaluates inside
the kernel. -/
def jsTrim (s : String) : String :=
  ⟨((s.data.dropWhile Char.isWhitespace).reverse.dropWhile Char.isWhitespace).reverse⟩

/-- JS Math.round: round half toward positive infinity. -/
def jsRound (x : Rat) : Int := Int.floor (x + 1 / 2)

/-! Style and sampler utilities (style-utils.ts, sampler-utils.ts). -/

/-- Replace the leftmost occurrence of pat in a character list with rep;
the list is returned unchanged when pat does not occur. -/
def replaceFirstChars (pat rep : List Char) : List Char → List Char
  | [] => if pat.isPrefixOf ([] : List Char) then rep else []
  | c :: cs =>
    if pat.isPrefixOf (c :: cs) then rep ++ (c :: cs).drop pat.length
    else c :: replaceFirstChars pat rep cs

/-- JS String.prototype.replace with a string pattern: replaces only the
first (leftmost) occurrence of the pattern. -/
def replaceFirst (s pat rep : String) : String :=
  ⟨replaceFirstChars pat.data rep.data s.data⟩

/-- The placeholder text used inside style prompt templates. -/
def promptPlaceholder : String := "\x7bprompt\x7d"

/-- applyStylePrompt from style-utils.ts. -/
def applyStylePrompt (stylePrompt userPrompt : String) : String :=
  if stylePrompt = "" ∨ stylePrompt = promptPlaceholder then userPrompt
  else replaceFirst stylePrompt promptPlaceholder userPrompt

/-- mergeNegativePrompts from style-utils.ts. -/
def mergeNegativePrompts (styleNegative userNegative : String) : String :=
  if styleNegative = "" then userNegative
  else if userNegative = "" then styleNegative
  else styleNegative ++ ", " ++ userNegative

/-- getStyleCheckpoint from style-utils.ts: first checkpoint or empty string. -/
def getStyleCheckpoint (style : Style) : String :=
  style.checkpoints.headD ""

structure SamplerPreset where
  sampler : String
  scheduler : String
deriving Repr, DecidableEq

/-- SAMPLER_PRESETS table from sampler-utils.ts. -/
def samplerPresets : List (String × SamplerPreset) :=
  [("Default - DPM++ 2M", ⟨"dpmpp_2m", "karras"⟩),
   ("Alternative - Euler A", ⟨"euler_ancestral", "normal"⟩),
   ("Creative - DPM++ 2M SDE", ⟨"dpmpp_2m_sde_gpu", "karras"⟩),
   ("Fast - UniPC BH2", ⟨"uni_pc_bh2", "gits"⟩),
   ("Euler beta", ⟨"euler", "beta"⟩),
   ("Turbo/Lightning Merge - DPM++ SDE", ⟨"dpmpp_sde_gpu", "karras"⟩),
   ("Lightning Merge - Euler A Uniform", ⟨"euler_ancestral", "sgm_uniform"⟩),
   ("Realtime - Hyper", ⟨"euler", "sgm_uniform"⟩),
   ("SD3 - DPM++ 2M Uniform", ⟨"dpmpp_2m", "sgm_uniform"⟩),
   ("Flux - Euler simple", ⟨"euler", "simple"⟩),
   ("Flux - Turbo", ⟨"euler", "simple"⟩),
   ("Flux 2 - Euler", ⟨"euler", "flux2"⟩)]

/-- resolveStyleSampler from sampler-utils.ts. -/
def resolveStyleSampler (presetName : String) : SamplerPreset :=
  match samplerPresets.lookup presetName with
  | some p => p
  | none => ⟨"euler", "normal"⟩

/-- mapControlMode from the generate panel: maps UI control modes to
backend ControlMode member names. -/
def mapControlMode (mode : String) : String :=
  if mode = "canny" then "canny_edge"
  else if mode = "lineart" then "line_art"
  else if mode = "softedge" then "soft_edge"
  else mode

/-! Backend request shape (the object literal passed to generate). -/

structure LoraArg where
  name : String
  strength : Rat
deriving Repr, DecidableEq

structure ControlArg where
  mode : String
  image : String
  strength : Rat
  rangeStart : Rat
  rangeEnd : Rat
  preprocessor : Bool
deriving Repr, DecidableEq

structure RegionArg where
  positive : String
  mask : String
  bounds : Option RegionBounds
deriving Repr, DecidableEq

/-- The persisted settings fields read by the generate panel at submit time
(settings.ts has more fields; only these three are consumed here). -/
structure Settings where
  selectionPadding : Rat
  selectionGrow : Rat
  selectionFeather : Rat
deriving Repr, DecidableEq

structure GenerateRequest where
  prompt : String
  negative_prompt : String
  width : Nat
  height : Nat
  batch_size : Nat
  model : String
  sampler : String
  scheduler : String
  cfg_scale : Rat
  steps : Nat
  seed : Int
  inpaint_mode : InpaintMode
  inpaint_fill : InpaintFillMode
  inpaint_context : InpaintContextMode
  inpaint_padding : Rat
  inpaint_grow : Rat
  inpaint_feather : Rat
  loras : List LoraArg
  control : Option (List ControlArg)
  regions : Option (List RegionArg)
  mask : Option String
  image : Option String
  strength : Option Rat
deriving Repr, DecidableEq

/-! Backend polling observations. -/

structure PaymentRequired where
  url : String
  credits : Option Int
deriving Repr, DecidableEq

inductive JobStatus
  | queued
  | executing (progress : Rat)
  | finished
  | error (error : Option String) (payment : Option PaymentRequired)
  | interrupted
deriving Repr, DecidableEq

/-- One iteration of the poll loop observes either that the user ran the
cancel branch of handleGenerate during the polling delay, or a status
response from getJobStatus, or a thrown transport error. -/
inductive PollEvent
  | userCancel
  | statusResult (s : JobStatus)
  | transportError (msg : String)
deriving Repr, DecidableEq

/-- Per-job answers of the external collaborators (Photoshop editor and
remote backend); each field is the value returned or thrown by one of the
awaited calls of runGeneration. -/
structure JobEnv where
  hasActiveDocument : Bool
  hasActiveSelection : Bool
  selectionMask : Except String (Option String)
  documentImage : Except String String
  layerImage : Int → Except String String
  regionSelectionMask : Except String (Option String)
  regionSelectionBounds : Except String (Option RegionBounds)
  regionLayerBounds : Int → Except String (Option RegionBounds)
  regionLayerMask : Int → Except String (Option String)
  generateResponse : Except String String
  pollEvents : List PollEvent
  jobImages : Except String (List String × List Int)
  settings : Settings
  timestamp : String

/-- The mutable state touched by one run of runGeneration, apart from the
queue: history log, generating flag, progress, current job reference,
cooperative cancellation flag, and logs of the outward effects (alert and
confirm dialogs, submitted backend requests, remote cancel calls). -/
structure CoreState where
  history : List HistoryGroup
  isGenerating : Bool
  progress : Rat
  progressText : String
  currentJob : Option String
  cancelled : Bool
  alerts : List String
  confirms : List String
  requests : List GenerateRequest
  remoteCancels : List String
deriving Repr, DecidableEq

/-- setProgress from the generation context: the text defaults to empty. -/
def setProgress (p : Rat) (text : String) (c : CoreState) : CoreState :=
  { c with progress := p, progressText := text }

/-- addGenerationResult from history-context.tsx: appends one group. -/
def addGenerationResult (group : HistoryGroup) (history : List HistoryGroup) :
    List HistoryGroup :=
  history ++ [group]

/-! The poll loop. -/

inductive PollOutcome
  | finishedLoop
  | cancelledLoop
  | pendingLoop
  | thrownLoop (msg : String)
deriving Repr, DecidableEq

/-- The cancel branch of handleGenerate, run by the user while a job is
active: set the cooperative flag, issue a best-effort remote cancel, and
reset the local state. -/
def userCancelActive (jobId : String) (c : CoreState) : CoreState :=
  { c with cancelled := true,
           remoteCancels := c.remoteCancels ++ [jobId],
           isGenerating := false, progress := 0, progressText := "",
           currentJob := none }

/-- The while loop of runGeneration polling getJobStatus until a terminal
status, a cancellation, or a thrown transport error; pendingLoop stands
for an execution whose observation list ended before any of those (the
real loop would still be polling). -/
def pollLoop (jobId : String) : List PollEvent → CoreState → PollOutcome × CoreState
  | [], c => (.pendingLoop, c)
  | e :: rest, c =>
    match e with
    | .userCancel => (.cancelledLoop, userCancelActive jobId c)
    | .transportError msg => (.thrownLoop msg, c)
    | .statusResult s =>
      match s with
      | .queued => pollLoop jobId rest (setProgress 0 "Queued..." c)
      | .executing p =>
          let r := jsRound (p * 100)
          pollLoop jobId rest (setProgress p s!"Generating... {r}%" c)
      | .finished => (.finishedLoop, setProgress 1 "Fetching images..." c)
      | .error err payment =>
          let c1 :=
            match payment with
            | some pr =>
              if pr.url != "" then
                let msg :=
                  match pr.credits with
                  | some n =>
                      s!"Insufficient credits (remaining: {n}). Open your account to buy tokens?"
                  | none => "Insufficient credits. Open your account to buy tokens?"
                { c with confirms := c.confirms ++ [msg] }
              else c
            | none => c
          (.thrownLoop (err.getD "Generation failed"), c1)
      | .interrupted => (.finishedLoop, c)

/-! Input capture phases. -/

/-- Selection-mask capture step: wraps a thrown capture error, and treats a
null or empty mask as the thrown error Selection mask is empty. -/
def captureSelectionMask (env : JobEnv) (hasSelection : Bool) :
    Except String (Option String) :=
  if hasSelection then
    match env.selectionMask with
    | .error e => .error ("Failed to capture selection mask: " ++ e)
    | .ok m =>
      if strTruthy m then .ok m
      else .error "Failed to capture selection mask: Selection mask is empty"
  else .ok none

/-- Document capture step: performed when in refine mode or when a
selection mask was captured. -/
def captureDocumentIfNeeded (env : JobEnv) (isRefineMode : Bool)
    (maskBase64 : Option String) : Except String (Option String) :=
  if isRefineMode || strTruthy maskBase64 then
    match env.documentImage with
    | .error e => .error ("Failed to capture document: " ++ e)
    | .ok img => .ok (some img)
  else .ok none

/-- Image source for one control layer: the literal image when truthy,
otherwise getLayerImageBase64 on the (non-null asserted) layer id. -/
def captureControlImage (env : JobEnv) (l : ControlLayer) : Except String String :=
  match l.image with
  | some img => if img != "" then .ok img else env.layerImage (l.layerId.getD 0)
  | none => env.layerImage (l.layerId.getD 0)

/-- One iteration of the control layer loop: push the captured argument,
or rethrow a capture failure as the named failure for that layer. -/
def controlLayerStep (env : JobEnv) (args : List ControlArg) (l : ControlLayer) :
    Except String (List ControlArg) :=
  match captureControlImage env l with
  | .ok image =>
      .ok (args ++ [{ mode := mapControlMode l.mode, image := image,
                      strength := l.strength,
                      rangeStart := l.rangeStart.getD 0,
                      rangeEnd := l.rangeEnd.getD 1,
                      preprocessor := l.isPreprocessor }])
  | .error _ =>
      let n := l.layerName
      .error ("Failed to process control layer \"" ++ n ++ "\"")

/-- The control layer loop: each capture failure is rethrown as the named
failure for that layer, aborting the whole fold. -/
def processControlLayers (env : JobEnv) (layers : List ControlLayer) :
    Except String (List ControlArg) :=
  layers.foldlM (controlLayerStep env) []

/-- Mask and bounds resolution for one region: the cached mask when truthy,
otherwise a best-effort capture from the selection or the linked layer. -/
def captureRegionMask (env : JobEnv) (r : Region) :
    Except String (Option String × Option RegionBounds) :=
  if strTruthy r.maskBase64 then .ok (r.maskBase64, r.bounds)
  else
    match r.maskSource with
    | .selection => do
        let m ← env.regionSelectionMask
        let b ← env.regionSelectionBounds
        pure (m, b)
    | .layer =>
        if intTruthy r.layerId then do
          let rid := r.layerId.getD 0
          let b ← env.regionLayerBounds rid
          let m ← env.regionLayerMask rid
          pure (m, b)
        else .ok (r.maskBase64, r.bounds)

/-- One iteration of the region loop: a region still lacking a mask after
best-effort capture is skipped, the others contribute one RegionArg. -/
def regionStep (env : JobEnv) (args : List RegionArg) (r : Region) :
    Except String (List RegionArg) := do
  let (mask, bounds) ← captureRegionMask env r
  match mask with
  | some m =>
      if m = "" then pure args
      else pure (args ++ [{ positive := r.prompt, mask := m, bounds := bounds }])
  | none => pure args

/-- The region loop over all active regions. -/
def processRegions (env : JobEnv) (regions : List Region) :
    Except String (List RegionArg) :=
  regions.foldlM (regionStep env) []

/-! Request construction and submission. -/

/-- finalPrompt of runGeneration. -/
def resolveFinalPrompt (snapshot : GenerationSnapshot) : String :=
  match snapshot.style with
  | some st => applyStylePrompt st.style_prompt snapshot.prompt
  | none => snapshot.prompt

/-- finalNegative of runGeneration. -/
def resolveFinalNegative (snapshot : GenerationSnapshot) : String :=
  match snapshot.style with
  | some st => mergeNegativePrompts st.negative_prompt snapshot.negativePrompt
  | none => snapshot.negativePrompt

/-- checkpoint of runGeneration: taken from the style whenever one is
selected, independently of useStyleDefaults. -/
def resolveCheckpoint (snapshot : GenerationSnapshot) : String :=
  match snapshot.style with
  | some st => getStyleCheckpoint st
  | none => ""

/-- finalSampler of runGeneration. -/
def resolveFinalSampler (snapshot : GenerationSnapshot) : String :=
  match snapshot.style with
  | some st =>
      if snapshot.useStyleDefaults then (resolveStyleSampler st.sampler).sampler
      else snapshot.sampler
  | none => snapshot.sampler

/-- finalScheduler of runGeneration. -/
def resolveFinalScheduler (snapshot : GenerationSnapshot) : String :=
  match snapshot.style with
  | some st =>
      if snapshot.useStyleDefaults then (resolveStyleSampler st.sampler).scheduler
      else snapshot.scheduler
  | none => snapshot.scheduler

/-- finalCfgScale of runGeneration. -/
def resolveFinalCfgScale (snapshot : GenerationSnapshot) : Rat :=
  match snapshot.style with
  | some st => if snapshot.useStyleDefaults then st.cfg_scale else snapshot.cfgScale
  | none => snapshot.cfgScale

/-- finalSteps of runGeneration. -/
def resolveFinalSteps (snapshot : GenerationSnapshot) : Nat :=
  match snapshot.style with
  | some st => if snapshot.useStyleDefaults then st.steps else snapshot.steps
  | none => snapshot.steps

/-- The object literal passed to generate, including the two conditional
spreads attaching image and strength. -/
def submittedRequest (env : JobEnv) (snapshot : GenerationSnapshot)
    (maskBase64 imageBase64 : Option String)
    (controlNetArgs : List ControlArg) (regionArgs : List RegionArg) :
    GenerateRequest :=
  let isRefineMode := decide (snapshot.strength < 100)
  let attachImage := isRefineMode || (!isRefineMode && strTruthy maskBase64)
  { prompt := resolveFinalPrompt snapshot,
    negative_prompt := resolveFinalNegative snapshot,
    width := snapshot.width, height := snapshot.height,
    batch_size := snapshot.batchSize,
    model := resolveCheckpoint snapshot,
    sampler := resolveFinalSampler snapshot,
    scheduler := resolveFinalScheduler snapshot,
    cfg_scale := resolveFinalCfgScale snapshot,
    steps := resolveFinalSteps snapshot,
    seed := if snapshot.fixedSeed then snapshot.seed else -1,
    inpaint_mode := snapshot.inpaintMode,
    inpaint_fill := snapshot.inpaintFill,
    inpaint_context := snapshot.inpaintContext,
    inpaint_padding := env.settings.selectionPadding,
    inpaint_grow := env.settings.selectionGrow,
    inpaint_feather := env.settings.selectionFeather,
    loras := (snapshot.loras.filter (fun l => jsTrim l.name != "")).map
      (fun l => { name := jsTrim l.name, strength := l.strength }),
    control := if controlNetArgs.length > 0 then some controlNetArgs else none,
    regions := if regionArgs.length > 0 then some regionArgs else none,
    mask := orUndefined maskBase64,
    image := if attachImage then imageBase64 else none,
    strength := if attachImage then some ((snapshot.strength : Rat) / 100) else none }

/-! Result fetch and history recording. -/

inductive JobOutcome
  | refused
  | pending
  | cancelledMid
  | completed
deriving Repr, DecidableEq

inductive TryResult
  | ok (c : CoreState) (o : JobOutcome)
  | thrown (c : CoreState) (msg : String)
deriving Repr, DecidableEq

/-- The history group built from a fetched image list, pairing each image
with the backend-reported seed at the same index. -/
def mkHistoryGroup (jobId : String) (env : JobEnv)
    (snapshot : GenerationSnapshot) (images : List String) (seeds : List Int) :
    HistoryGroup :=
  { job_id := jobId, timestamp := env.timestamp,
    prompt := snapshot.prompt, negative_prompt := snapshot.negativePrompt,
    strength := snapshot.strength,
    style_id := match snapshot.style with | some st => st.id | none => "",
    images := images.enum.map
      (fun p => { index := p.1,
                  thumbnail := "data:image/png;base64," ++ p.2,
                  applied := false, seed := seeds.get? p.1 }) }

/-- The code after the poll loop exits without cancellation: fetch the
images, treat an empty list as the error No images generated, otherwise
record exactly one history group, mark progress done and clear the current
job reference. -/
def fetchAndRecord (env : JobEnv) (jobId : String)
    (snapshot : GenerationSnapshot) (c : CoreState) : TryResult :=
  match env.jobImages with
  | .error msg => .thrown c msg
  | .ok (images, seeds) =>
    if images.length = 0 then .thrown c "No images generated"
    else
      let group := mkHistoryGroup jobId env snapshot images seeds
      let c1 := { c with history := addGenerationResult group c.history }
      let c2 := { setProgress 1 "Done!" c1 with currentJob := none }
      .ok c2 .completed

/-! The try block of runGeneration. -/

/-- The body of the try block of runGeneration: inpaint precondition,
captures, style resolution, request submission, polling, and result
handling; thrown carries the state at the throw together with the message
of the error reaching the catch block. -/
def tryGenerate (env : JobEnv) (snapshot : GenerationSnapshot) (c0 : CoreState) :
    TryResult :=
  let isRefineMode := decide (snapshot.strength < 100)
  let hasSelection := env.hasActiveSelection
  if hasSelection = false ∧ snapshot.inpaintMode ≠ InpaintMode.automatic then
    .ok { c0 with isGenerating := false, progress := 0, progressText := "",
                  alerts := c0.alerts ++ ["No active selection found for inpaint."] }
       .refused
  else
    let cSel := if hasSelection then setProgress 0 "Capturing selection..." c0 else c0
    match captureSelectionMask env hasSelection with
    | .error msg => .thrown cSel msg
    | .ok maskBase64 =>
      let needImage := isRefineMode || strTruthy maskBase64
      let cDoc := if needImage then setProgress 0 "Capturing document..." cSel else cSel
      match captureDocumentIfNeeded env isRefineMode maskBase64 with
      | .error msg => .thrown cDoc msg
      | .ok imageBase64 =>
        let activeControlLayers := snapshot.controlLayers.filter
          (fun l => l.isEnabled && (strTruthy l.image || l.layerId.isSome))
        let cCtl := if activeControlLayers.length > 0 then
            setProgress 0 "Processing control layers..." cDoc else cDoc
        match processControlLayers env activeControlLayers with
        | .error msg => .thrown cCtl msg
        | .ok controlNetArgs =>
          let activeRegions := snapshot.regions.filter
            (fun r => r.isVisible && jsTrim r.prompt != "")
          let cReg := if activeRegions.length > 0 then
              setProgress 0 "Processing regions..." cCtl else cCtl
          match processRegions env activeRegions with
          | .error msg => .thrown cReg msg
          | .ok regionArgs =>
            let cSub := setProgress 0 "Submitting..." cReg
            let req := submittedRequest env snapshot maskBase64 imageBase64
              controlNetArgs regionArgs
            let cReqd := { cSub with requests := cSub.requests ++ [req] }
            match env.generateResponse with
            | .error msg => .thrown cReqd msg
            | .ok jobId =>
              let cJob := { cReqd with currentJob := some jobId }
              match pollLoop jobId env.pollEvents cJob with
              | (.thrownLoop msg, cp) => .thrown cp msg
              | (.pendingLoop, cp) => .ok cp .pending
              | (.cancelledLoop, cp) => .ok cp .cancelledMid
              | (.finishedLoop, cp) => fetchAndRecord env jobId snapshot cp

/-! One full run of runGeneration for a non-blank snapshot. -/

inductive RunOutcome
  | halted
  | advanceAfterCancel
  | advanceAfterFinish
deriving Repr, DecidableEq

/-- The state updates at the top of the try block: setIsGenerating(true),
setProgress(0), cancelledRef.current = false. -/
def startCore (c : CoreState) : CoreState :=
  { c with isGenerating := true, progress := 0, progressText := "", cancelled := false }

/-- The catch block of runGeneration: reset to idle and alert with the
message of the caught error. -/
def catchCore (c : CoreState) (msg : String) : CoreState :=
  { c with isGenerating := false, progress := 0, progressText := "",
           currentJob := none,
           alerts := c.alerts ++ ["Generation failed: " ++ msg] }

/-- One run of runGeneration on a non-blank snapshot, up to (but not
including) queue advancement: the active-document guard, then the try
block, with the catch applied to a thrown error. -/
def runJobBody (env : JobEnv) (snapshot : GenerationSnapshot) (c0 : CoreState) :
    CoreState × RunOutcome :=
  if env.hasActiveDocument = false then
    ({ c0 with alerts := c0.alerts ++ ["Please open a document first"],
               isGenerating := false, progress := 0, progressText := "",
               currentJob := none }, .halted)
  else
    match tryGenerate env snapshot (startCore c0) with
    | .ok c1 .refused => (c1, .halted)
    | .ok c1 .pending => (c1, .halted)
    | .ok c1 .cancelledMid => (c1, .advanceAfterCancel)
    | .ok c1 .completed => (c1, .advanceAfterFinish)
    | .thrown c1 msg => (catchCore c1 msg, .halted)

/-! Queue operations (generation context and generate panel handlers). -/

/-- enqueueJob from generation-context.tsx: append at the back. -/
def enqueueJob (item : QueueItem) (queue : List QueueItem) : List QueueItem :=
  queue ++ [item]

/-- handleQueueFront from the generate panel: prepend at the head. -/
def enqueueFront (item : QueueItem) (queue : List QueueItem) : List QueueItem :=
  item :: queue

/-- handleQueueReplace from the generate panel: discard the queue and
insert the single item. -/
def replaceAllQueue (item : QueueItem) (_queue : List QueueItem) : List QueueItem :=
  [item]

/-- takeNextQueueItem from the generate panel: pop and return the head, or
null on an empty queue (in which case the queue state is not written). -/
def takeNextQueueItem (queue : List QueueItem) : Option QueueItem × List QueueItem :=
  match queue with
  | [] => (none, queue)
  | next :: rest => (some next, rest)

/-- A successful pop strictly shrinks the queue. -/
theorem takeNext_some_length (q rest : List QueueItem) (x : QueueItem)
    (h : takeNextQueueItem q = (some x, rest)) : rest.length < q.length := by
  cases q with
  | nil => simp [takeNextQueueItem] at h
  | cons a as =>
      simp only [takeNextQueueItem, Prod.mk.injEq, Option.some.injEq] at h
      rw [← h.2]
      simp

/-- The orchestrator state: the core state together with the queue of
pending snapshots (queueRef in the panel). -/
structure OrchState where
  core : CoreState
  queue : List QueueItem
deriving Repr, DecidableEq

/-- runGeneration from the generate panel, with the recursive run-next
continuation: a blank prompt skips straight to the next queued item; an
erroring or refused job halts without queue advancement; a cancelled or
completed job dequeues the next item and runs it, a completed job with an
empty queue returning to idle after the short delay. The environment for
the k-th submitting run is envs k. -/
def runGeneration (envs : Nat → JobEnv) (k : Nat)
    (snapshot : GenerationSnapshot) (st : OrchState) : OrchState :=
  if jsTrim snapshot.prompt = "" then
    match h : takeNextQueueItem st.queue with
    | (none, _) => st
    | (some next, rest) => runGeneration envs k next.snapshot { st with queue := rest }
  else
    match runJobBody (envs k) snapshot st.core with
    | (c1, .halted) => { st with core := c1 }
    | (c1, .advanceAfterCancel) =>
      match h : takeNextQueueItem st.queue with
      | (none, _) => { st with core := c1 }
      | (some next, rest) =>
          runGeneration envs (k + 1) next.snapshot { core := c1, queue := rest }
    | (c1, .advanceAfterFinish) =>
      match h : takeNextQueueItem st.queue with
      | (none, _) =>
          { st with core := { c1 with isGenerating := false, progress := 0,
                                      progressText := "" } }
      | (some next, rest) =>
          runGeneration envs (k + 1) next.snapshot { core := c1, queue := rest }
termination_by st.queue.length
decreasing_by
  all_goals exact takeNext_some_length _ _ _ h

/-! The live, continuously edited configuration state of the generation
context, and the Snapshot Builder freezing it. -/

/-- GenerationState of the generation context: the live configuration
edited by the UI, plus the queue of pending items. -/
structure LiveState where
  style : Option Style
  prompt : String
  negativePrompt : String
  strength : Nat
  inpaintMode : InpaintMode
  inpaintFill : InpaintFillMode
  inpaintContext : InpaintContextMode
  isGenerating : Bool
  progress : Rat
  progressText : String
  batchSize : Nat
  seed : Int
  fixedSeed : Bool
  width : Nat
  height : Nat
  steps : Nat
  cfgScale : Rat
  sampler : String
  scheduler : String
  useStyleDefaults : Bool
  loras : List LoraItem
  controlLayers : List ControlLayer
  regions : List Region
  queue : List QueueItem
deriving Repr

/-- buildSnapshot from the generate panel: freezes the live configuration
into a GenerationSnapshot. -/
def buildSnapshot (s : LiveState) : GenerationSnapshot :=
  { prompt := s.prompt,
    negativePrompt := s.negativePrompt,
    strength := s.strength,
    inpaintMode := s.inpaintMode,
    inpaintFill := s.inpaintFill,
    inpaintContext := s.inpaintContext,
    batchSize := s.batchSize,
    seed := s.seed,
    fixedSeed := s.fixedSeed,
    style := s.style,
    width := s.width,
    height := s.height,
    steps := s.steps,
    cfgScale := s.cfgScale,
    sampler := s.sampler,
    scheduler := s.scheduler,
    useStyleDefaults := s.useStyleDefaults,
    loras := s.loras,
    controlLayers := s.controlLayers,
    regions := s.regions }

/-- The live-configuration mutations exposed by the generation context.
Partial record updates (updateControlLayer, updateRegion, updateLora) are
modelled as field-update functions; fresh ids and random seeds, produced
by crypto.randomUUID and Math.random in the source, are parameters. The
lora mutators are not present under src (only their call sites are) and
follow the uniform setState pattern of the other mutators. -/
inductive LiveOp
  | setStyle (style : Style)
  | setPrompt (prompt : String)
  | setNegativePrompt (negativePrompt : String)
  | setStrength (strength : Nat)
  | setInpaintMode (mode : InpaintMode)
  | setInpaintFill (mode : InpaintFillMode)
  | setInpaintContext (ctx : InpaintContextMode)
  | setBatchSize (size : Nat)
  | setSeed (seed : Int)
  | setFixedSeed (fixed : Bool)
  | randomizeSeed (newSeed : Int)
  | setWidth (width : Nat)
  | setHeight (height : Nat)
  | setSteps (steps : Nat)
  | setCfgScale (cfgScale : Rat)
  | setSampler (sampler : String)
  | setScheduler (scheduler : String)
  | setUseStyleDefaults (useDefaults : Bool)
  | setLoras (loras : List LoraItem)
  | addLora (newId : String)
  | updateLora (id : String) (updates : LoraItem → LoraItem)
  | removeLora (id : String)
  | setControlLayers (layers : List ControlLayer)
  | addControlLayer (newId : String)
  | updateControlLayer (id : String) (updates : ControlLayer → ControlLayer)
  | removeControlLayer (id : String)
  | setRegions (regions : List Region)
  | addRegion (newId : String)
  | updateRegion (id : String) (updates : Region → Region)
  | removeRegion (id : String)

/-- The setState updater of one live-configuration mutation, translated
from the generation context callbacks: each one is a pure record update
that replaces a field or rebuilds one list. -/
def applyLiveOp (op : LiveOp) (s : LiveState) : LiveState :=
  match op with
  | .setStyle style => { s with style := some style }
  | .setPrompt prompt => { s with prompt := prompt }
  | .setNegativePrompt negativePrompt => { s with negativePrompt := negativePrompt }
  | .setStrength strength => { s with strength := strength }
  | .setInpaintMode mode => { s with inpaintMode := mode }
  | .setInpaintFill mode => { s with inpaintFill := mode }
  | .setInpaintContext ctx => { s with inpaintContext := ctx }
  | .setBatchSize size => { s with batchSize := size }
  | .setSeed seed => { s with seed := seed }
  | .setFixedSeed fixed => { s with fixedSeed := fixed }
  | .randomizeSeed newSeed => { s with seed := newSeed }
  | .setWidth width => { s with width := width }
  | .setHeight height => { s with height := height }
  | .setSteps steps => { s with steps := steps }
  | .setCfgScale cfgScale => { s with cfgScale := cfgScale }
  | .setSampler sampler => { s with sampler := sampler }
  | .setScheduler scheduler => { s with scheduler := scheduler }
  | .setUseStyleDefaults useDefaults => { s with useStyleDefaults := useDefaults }
  | .setLoras loras => { s with loras := loras }
  | .addLora newId =>
      { s with loras := s.loras ++ [{ id := newId, name := "", strength := 1 }] }
  | .updateLora id f =>
      { s with loras := s.loras.map (fun l => if l.id = id then f l else l) }
  | .removeLora id => { s with loras := s.loras.filter (fun l => l.id != id) }
  | .setControlLayers layers => { s with controlLayers := layers }
  | .addControlLayer newId =>
      { s with controlLayers := s.controlLayers ++
          [{ id := newId, mode := "canny", layerId := none, layerName := "",
             image := none, strength := 1, rangeStart := none, rangeEnd := none,
             isEnabled := true, isPreprocessor := true }] }
  | .updateControlLayer id f =>
      { s with controlLayers :=
          s.controlLayers.map (fun l => if l.id = id then f l else l) }
  | .removeControlLayer id =>
      { s with controlLayers := s.controlLayers.filter (fun l => l.id != id) }
  | .setRegions regions => { s with regions := regions }
  | .addRegion newId =>
      { s with regions := s.regions ++
          [{ id := newId, name := "Region " ++ toString (s.regions.length + 1),
             prompt := "", layerId := none, maskSource := .selection,
             maskBase64 := none, bounds := none, isVisible := true }] }
  | .updateRegion id f =>
      { s with regions := s.regions.map (fun r => if r.id = id then f r else r) }
  | .removeRegion id => { s with regions := s.regions.filter (fun r => r.id != id) }

/-- A sequence of live-configuration mutations applied in order. -/
def applyLiveOps (ops : List LiveOp) (s : LiveState) : LiveState :=
  ops.foldl (fun s op => applyLiveOp op s) s

/-- handleQueueCurrent from the generate panel: freeze the live
configuration with buildSnapshot and append the item at the back. -/
def handleQueueCurrent (id createdAt : String) (s : LiveState) : LiveState :=
  { s with queue := enqueueJob { id := id, createdAt := createdAt,
                                 snapshot := buildSnapshot s } s.queue }

/-! Concrete fixtures used to evaluate the model at explicit inputs. -/

def defaultSettings : Settings := ⟨32, 0, 8⟩

/-- A minimal full-generation snapshot (strength 100, no style, no layers). -/
def baseSnapshot : GenerationSnapshot :=
  { prompt := "a cat", negativePrompt := "", strength := 100,
    inpaintMode := .automatic, inpaintFill := .neutral, inpaintContext := .automatic,
    batchSize := 1, seed := 7, fixedSeed := true, style := none,
    width := 64, height := 64, steps := 2, cfgScale := 7,
    sampler := "euler", scheduler := "normal", useStyleDefaults := true,
    loras := [], controlLayers := [], regions := [] }

/-- A benign environment: active document, no selection, all captures
succeed, one finished poll, one image with seed 11. -/
def baseEnv : JobEnv :=
  { hasActiveDocument := true, hasActiveSelection := false,
    selectionMask := .ok none, documentImage := .ok "DOC",
    layerImage := fun _ => .ok "LIMG",
    regionSelectionMask := .ok none, regionSelectionBounds := .ok none,
    regionLayerBounds := fun _ => .ok none, regionLayerMask := fun _ => .ok none,
    generateResponse := .ok "job-1",
    pollEvents := [.statusResult .finished],
    jobImages := .ok (["IMG"], [11]),
    settings := defaultSettings, timestamp := "T0" }

def emptyCore : CoreState := ⟨[], false, 0, "", none, false, [], [], [], []⟩

/-! Helper unfolding lemmas for the orchestrator. -/

/-- Live-configuration mutations never touch the queue. -/
theorem applyLiveOp_queue (op : LiveOp) (s : LiveState) :
    (applyLiveOp op s).queue = s.queue := by
  cases op <;> rfl

/-- With an active document, a thrown try block lands in the catch block. -/
theorem runJobBody_of_thrown (env : JobEnv) (snapshot : GenerationSnapshot)
    (c0 c1 : CoreState) (msg : String)
    (hdoc : env.hasActiveDocument = true)
    (h : tryGenerate env snapshot (startCore c0) = .thrown c1 msg) :
    runJobBody env snapshot c0 = (catchCore c1 msg, .halted) := by
  unfold runJobBody
  simp [hdoc, h]

/-- With an active document, a returned try block passes its outcome on. -/
theorem runJobBody_of_ok (env : JobEnv) (snapshot : GenerationSnapshot)
    (c0 c1 : CoreState) (o : JobOutcome)
    (hdoc : env.hasActiveDocument = true)
    (h : tryGenerate env snapshot (startCore c0) = .ok c1 o) :
    runJobBody env snapshot c0 =
      (c1, match o with
           | .refused => .halted
           | .pending => .halted
           | .cancelledMid => .advanceAfterCancel
           | .completed => .advanceAfterFinish) := by
  unfold runJobBody
  cases o <;> simp [hdoc, h]

/-- Blank prompt, empty queue: runGeneration returns the state unchanged. -/
theorem runGeneration_blank_nil (envs : Nat → JobEnv) (k : Nat)
    (snapshot : GenerationSnapshot) (st : OrchState)
    (hp : jsTrim snapshot.prompt = "") (hq : st.queue = []) :
    runGeneration envs k snapshot st = st := by
  rcases st with ⟨c, q⟩
  simp only at hq
  subst hq
  rw [runGeneration]
  simp [hp, takeNextQueueItem]

/-- Blank prompt, pending queue: runGeneration dequeues the head and runs
it with the state otherwise unchanged. -/
theorem runGeneration_blank_cons (envs : Nat → JobEnv) (k : Nat)
    (snapshot : GenerationSnapshot) (st : OrchState)
    (next : QueueItem) (rest : List QueueItem)
    (hp : jsTrim snapshot.prompt = "") (hq : st.queue = next :: rest) :
    runGeneration envs k snapshot st =
      runGeneration envs k next.snapshot { st with queue := rest } := by
  rcases st with ⟨c, q⟩
  simp only at hq
  subst hq
  conv_lhs => rw [runGeneration]
  simp [hp, takeNextQueueItem]

/-- A halted body updates the core and leaves the queue alone. -/
theorem runGeneration_halted (envs : Nat → JobEnv) (k : Nat)
    (snapshot : GenerationSnapshot) (st : OrchState) (c1 : CoreState)
    (hp : ¬jsTrim snapshot.prompt = "")
    (h : runJobBody (envs k) snapshot st.core = (c1, .halted)) :
    runGeneration envs k snapshot st = { st with core := c1 } := by
  rcases st with ⟨c, q⟩
  simp only at h
  rw [runGeneration]
  simp [hp, h]

/-- A cancelled body with an empty queue stops with the cleaned-up core. -/
theorem runGeneration_cancel_nil (envs : Nat → JobEnv) (k : Nat)
    (snapshot : GenerationSnapshot) (st : OrchState) (c1 : CoreState)
    (hp : ¬jsTrim snapshot.prompt = "") (hq : st.queue = [])
    (h : runJobBody (envs k) snapshot st.core = (c1, .advanceAfterCancel)) :
    runGeneration envs k snapshot st = { st with core := c1 } := by
  rcases st with ⟨c, q⟩
  simp only at h hq
  subst hq
  rw [runGeneration]
  simp [hp, h, takeNextQueueItem]

/-- A cancelled body with a pending queue dequeues the head and runs it. -/
theorem runGeneration_cancel_cons (envs : Nat → JobEnv) (k : Nat)
    (snapshot : GenerationSnapshot) (st : OrchState) (c1 : CoreState)
    (next : QueueItem) (rest : List QueueItem)
    (hp : ¬jsTrim snapshot.prompt = "") (hq : st.queue = next :: rest)
    (h : runJobBody (envs k) snapshot st.core = (c1, .advanceAfterCancel)) :
    runGeneration envs k snapshot st =
      runGeneration envs (k + 1) next.snapshot { core := c1, queue := rest } := by
  rcases st with ⟨c, q⟩
  simp only at h hq
  subst hq
  conv_lhs => rw [runGeneration]
  simp [hp, h, takeNextQueueItem]

/-- A completed body with an empty queue returns to idle after the delay. -/
theorem runGeneration_finish_nil (envs : Nat → JobEnv) (k : Nat)
    (snapshot : GenerationSnapshot) (st : OrchState) (c1 : CoreState)
    (hp : ¬jsTrim snapshot.prompt = "") (hq : st.queue = [])
    (h : runJobBody (envs k) snapshot st.core = (c1, .advanceAfterFinish)) :
    runGeneration envs k snapshot st =
      { st with core := { c1 with isGenerating := false, progress := 0,
                                  progressText := "" } } := by
  rcases st with ⟨c, q⟩
  simp only at h hq
  subst hq
  rw [runGeneration]
  simp [hp, h, takeNextQueueItem]

/-- A completed body with a pending queue dequeues the head and runs it. -/
theorem runGeneration_finish_cons (envs : Nat → JobEnv) (k : Nat)
    (snapshot : GenerationSnapshot) (st : OrchState) (c1 : CoreState)
    (next : QueueItem) (rest : List QueueItem)
    (hp : ¬jsTrim snapshot.prompt = "") (hq : st.queue = next :: rest)
    (h : runJobBody (envs k) snapshot st.core = (c1, .advanceAfterFinish)) :
    runGeneration envs k snapshot st =
      runGeneration envs (k + 1) next.snapshot { core := c1, queue := rest } := by
  rcases st with ⟨c, q⟩
  simp only at h hq
  subst hq
  conv_lhs => rw [runGeneration]
  simp [hp, h, takeNextQueueItem]

/-! Further concrete fixtures. -/

/-- A whitespace-only prompt snapshot. -/
def blankSnapshot : GenerationSnapshot := { baseSnapshot with prompt := "  " }

/-- A queued item carrying the base snapshot. -/
def itemA : QueueItem := { id := "qa", createdAt := "t1", snapshot := baseSnapshot }

def itemB : QueueItem := { id := "qb", createdAt := "t2", snapshot := blankSnapshot }

def itemC : QueueItem :=
  { id := "qc", createdAt := "t3", snapshot := { baseSnapshot with prompt := "a dog" } }

/-- An environment whose job reports a backend error with message boom. -/
def envErr : JobEnv :=
  { baseEnv with pollEvents := [.statusResult (.error (some "boom") none)] }

/-- The state at the throw raised from the erroring poll of envErr. -/
def cErrState : CoreState :=
  match tryGenerate envErr baseSnapshot (startCore emptyCore) with
  | .thrown c _ => c
  | .ok c _ => c

/-! Claim theorems. -/

/-- C3: starting from an empty queue, the operation sequence
enqueueBack(A); enqueueFront(B); enqueueBack(C) makes repeated takeNext
calls return B, then A, then C, then null; enqueueBack appends at the
tail, enqueueFront prepends at the head, replaceAll discards all prior
items, and takeNext removes and returns the head (null if empty). -/
theorem claim_C3_queue_ordering (A B C : QueueItem) (q : List QueueItem) :
    enqueueJob A q = q ++ [A] ∧
    enqueueFront B q = B :: q ∧
    replaceAllQueue A q = [A] ∧
    takeNextQueueItem ([] : List QueueItem) = (none, []) ∧
    (∀ x rest, takeNextQueueItem (x :: rest) = (some x, rest)) ∧
    (let q3 := enqueueJob C (enqueueFront B (enqueueJob A ([] : List QueueItem)))
     let s1 := takeNextQueueItem q3
     let s2 := takeNextQueueItem s1.2
     let s3 := takeNextQueueItem s2.2
     let s4 := takeNextQueueItem s3.2
     s1.1 = some B ∧ s2.1 = some A ∧ s3.1 = some C ∧ s4.1 = none) := by
  refine ⟨rfl, rfl, rfl, rfl, fun x rest => rfl, rfl, rfl, rfl, rfl⟩

/-- C6: a snapshot frozen by the Snapshot Builder and queued is a deep,
independent value: no subsequent live-configuration mutation (including
mutations of the lora, control layer and region lists) is observable
through it — after any sequence of mutations the queue still holds the
item with exactly the snapshot built before them. -/
theorem claim_C6_snapshot_immutable (s : LiveState) (id createdAt : String)
    (ops : List LiveOp) :
    (applyLiveOps ops (handleQueueCurrent id createdAt s)).queue
      = s.queue ++ [{ id := id, createdAt := createdAt, snapshot := buildSnapshot s }] := by
  have hframe : ∀ (l : List LiveOp) (t : LiveState), (applyLiveOps l t).queue = t.queue := by
    intro l
    induction l with
    | nil => intro t; rfl
    | cons op rest ih =>
        intro t
        have hstep : applyLiveOps (op :: rest) t = applyLiveOps rest (applyLiveOp op t) := rfl
        rw [hstep, ih, applyLiveOp_queue]
  rw [hframe]
  rfl

/-- C10: a snapshot whose prompt is empty or whitespace-only is silently
skipped: runGeneration performs no capture, no backend request and records
nothing for it, leaving the state untouched except that the head of the
queue, if any, is dequeued and run in its place. -/
theorem claim_C10_blank_prompt_skips (envs : Nat → JobEnv) (k : Nat)
    (snapshot : GenerationSnapshot) (st : OrchState)
    (hblank : jsTrim snapshot.prompt = "") :
    (st.queue = [] → runGeneration envs k snapshot st = st) ∧
    (∀ next rest, st.queue = next :: rest →
        runGeneration envs k snapshot st =
          runGeneration envs k next.snapshot { st with queue := rest }) := by
  refine ⟨fun hq => runGeneration_blank_nil envs k snapshot st hblank hq,
          fun next rest hq =>
            runGeneration_blank_cons envs k snapshot st next rest hblank hq⟩

/-- Witness for C10 at a concrete whitespace prompt and one queued item. -/
theorem claim_C10_witness :
    runGeneration (fun _ => baseEnv) 0 blankSnapshot ⟨emptyCore, [itemA]⟩ =
      runGeneration (fun _ => baseEnv) 0 itemA.snapshot ⟨emptyCore, []⟩ :=
  (claim_C10_blank_prompt_skips (fun _ => baseEnv) 0 blankSnapshot
    ⟨emptyCore, [itemA]⟩ rfl).2 itemA [] rfl

/-- C1: with a non-empty pending queue, a job that ends in error (backend
error status, transport error, or capture error — all reaching the catch
block) leaves the orchestrator idle with the queue unchanged and starts no
new job; a job cancelled by the user instead dequeues the head of the
queue after local cleanup and runs it automatically. -/
theorem claim_C1_error_halts_cancel_advances (envs : Nat → JobEnv) (k : Nat)
    (snapshot : GenerationSnapshot) (st : OrchState)
    (hp : ¬jsTrim snapshot.prompt = "")
    (hdoc : (envs k).hasActiveDocument = true) :
    (∀ c1 msg, tryGenerate (envs k) snapshot (startCore st.core) = .thrown c1 msg →
        runGeneration envs k snapshot st = { st with core := catchCore c1 msg } ∧
        (runGeneration envs k snapshot st).queue = st.queue ∧
        (runGeneration envs k snapshot st).core.isGenerating = false ∧
        (runGeneration envs k snapshot st).core.progress = 0 ∧
        (runGeneration envs k snapshot st).core.currentJob = none ∧
        (runGeneration envs k snapshot st).core.requests = c1.requests) ∧
    (∀ c1 next rest,
        tryGenerate (envs k) snapshot (startCore st.core) = .ok c1 .cancelledMid →
        st.queue = next :: rest →
        runGeneration envs k snapshot st =
          runGeneration envs (k + 1) next.snapshot { core := c1, queue := rest }) := by
  constructor
  · intro c1 msg h
    have hb := runJobBody_of_thrown (envs k) snapshot st.core c1 msg hdoc h
    have hr := runGeneration_halted envs k snapshot st (catchCore c1 msg) hp hb
    refine ⟨hr, ?_, ?_, ?_, ?_, ?_⟩ <;> simp [hr, catchCore]
  · intro c1 next rest h hq
    have hb := runJobBody_of_ok (envs k) snapshot st.core c1 .cancelledMid hdoc h
    exact runGeneration_cancel_cons envs k snapshot st c1 next rest hp hq hb

/-- Witness for C1: a backend error status with one queued item leaves the
catch-state with that item still queued. -/
theorem claim_C1_witness :
    runGeneration (fun _ => envErr) 0 baseSnapshot ⟨emptyCore, [itemA]⟩ =
      { core := catchCore cErrState "boom", queue := [itemA] } :=
  ((claim_C1_error_halts_cancel_advances (fun _ => envErr) 0 baseSnapshot
      ⟨emptyCore, [itemA]⟩ (by decide) rfl).1 cErrState "boom" rfl).1

/-- C8: a snapshot whose inpaint mode is not automatic, submitted with no
active selection, is refused with the exact alert message, no backend
request is made, the queue is untouched and the orchestrator returns to
idle. -/
theorem claim_C8_inpaint_refusal (envs : Nat → JobEnv) (k : Nat)
    (snapshot : GenerationSnapshot) (st : OrchState)
    (hp : ¬jsTrim snapshot.prompt = "")
    (hdoc : (envs k).hasActiveDocument = true)
    (hsel : (envs k).hasActiveSelection = false)
    (hmode : snapshot.inpaintMode ≠ InpaintMode.automatic) :
    runGeneration envs k snapshot st =
      { st with core :=
          { startCore st.core with
            isGenerating := false,
            progress := 0,
            progressText := "",
            alerts := st.core.alerts ++
              ["No active selection found for inpaint."] } } ∧
    (runGeneration envs k snapshot st).queue = st.queue ∧
    (runGeneration envs k snapshot st).core.requests = st.core.requests ∧
    (runGeneration envs k snapshot st).core.isGenerating = false ∧
    (runGeneration envs k snapshot st).core.progress = 0 ∧
    (runGeneration envs k snapshot st).core.alerts =
      st.core.alerts ++ ["No active selection found for inpaint."] := by
  have h : tryGenerate (envs k) snapshot (startCore st.core) =
      .ok { startCore st.core with
            isGenerating := false,
            progress := 0,
            progressText := "",
            alerts := (startCore st.core).alerts ++
              ["No active selection found for inpaint."] }
        .refused := by
    unfold tryGenerate
    rw [if_pos ⟨hsel, hmode⟩]
  have hb := runJobBody_of_ok (envs k) snapshot st.core _ .refused hdoc h
  have hr := runGeneration_halted envs k snapshot st _ hp hb
  refine ⟨hr, ?_, ?_, ?_, ?_, ?_⟩ <;> simp [hr, startCore]

/-- A snapshot requiring a selection (non-automatic inpaint mode). -/
def snapInpaint : GenerationSnapshot := { baseSnapshot with inpaintMode := .fill }

/-- Witness for C8 at the concrete fill-mode snapshot with no selection. -/
theorem claim_C8_witness :
    runGeneration (fun _ => baseEnv) 0 snapInpaint ⟨emptyCore, []⟩ =
      { core :=
          { startCore emptyCore with
            isGenerating := false,
            progress := 0,
            progressText := "",
            alerts := ["No active selection found for inpaint."] },
        queue := [] } :=
  (claim_C8_inpaint_refusal (fun _ => baseEnv) 0 snapInpaint ⟨emptyCore, []⟩
    (by decide) rfl rfl (by decide)).1

/-- C5: when the poll loop exits at finished, a fetched image list with
N ≥ 1 entries yields exactly one HistoryGroup appended to history,
containing exactly N HistoryImage entries whose seed at index i is the
backend-reported seed at index i and whose applied flag is false; a
fetched empty list raises the error No images generated and records no
group. -/
theorem claim_C5_history_roundtrip (env : JobEnv) (jid : String)
    (snapshot : GenerationSnapshot) (c : CoreState)
    (imgs : List String) (seeds : List Int)
    (h : env.jobImages = .ok (imgs, seeds)) :
    (imgs.length = 0 →
        fetchAndRecord env jid snapshot c = .thrown c "No images generated") ∧
    (1 ≤ imgs.length → ∃ g,
        fetchAndRecord env jid snapshot c =
          .ok { setProgress 1 "Done!"
                  { c with history := addGenerationResult g c.history } with
                currentJob := none } .completed ∧
        g.images.length = imgs.length ∧
        (∀ i, ∀ hi : i < imgs.length, ∃ himg, g.images.get? i = some himg ∧
            himg.seed = seeds.get? i ∧ himg.applied = false ∧ himg.index = i)) := by
  constructor
  · intro hlen
    unfold fetchAndRecord
    rw [h]
    simp [hlen]
  · intro hlen
    refine ⟨mkHistoryGroup jid env snapshot imgs seeds, ?_, ?_, ?_⟩
    · unfold fetchAndRecord
      rw [h]
      have hne : ¬imgs.length = 0 := by omega
      simp [hne]
    · simp [mkHistoryGroup, List.enum_length]
    · intro i hi
      have ha : imgs.get? i = some (imgs.get ⟨i, hi⟩) := List.get?_eq_get hi
      refine ⟨{ index := i,
                thumbnail := "data:image/png;base64," ++ imgs.get ⟨i, hi⟩,
                applied := false, seed := seeds.get? i }, ?_, rfl, rfl, rfl⟩
      simp only [mkHistoryGroup, List.get?_eq_getElem?, List.getElem?_map,
        List.getElem?_enum] at ha ⊢
      rw [ha]
      rfl

/-- Witness for C5 at the base environment fetching one image with seed 11. -/
theorem claim_C5_witness :
    ∃ g, fetchAndRecord baseEnv "job-1" baseSnapshot emptyCore =
        .ok { setProgress 1 "Done!"
                { emptyCore with
                  history := addGenerationResult g emptyCore.history } with
              currentJob := none } .completed ∧
      g.images.length = 1 ∧
      (∀ i, ∀ hi : i < 1, ∃ himg, g.images.get? i = some himg ∧
          himg.seed = ([11] : List Int).get? i ∧ himg.applied = false ∧
          himg.index = i) :=
  (claim_C5_history_roundtrip baseEnv "job-1" baseSnapshot emptyCore
    ["IMG"] [11] rfl).2 (by decide)

/-- Strength 100 with an active selection: the inpaint spread still fires. -/
def envC2 : JobEnv :=
  { baseEnv with hasActiveSelection := true, selectionMask := .ok (some "MASK") }

/-- C2 counterexample: at snapshot.strength = 100 with a selection mask
captured, the submitted request DOES carry an image and a strength field
(strength 100/100 = 1), contradicting the claim that strength = 100 never
attaches the pair. -/
theorem claim_C2_counterexample :
    baseSnapshot.strength = 100 ∧
    (runJobBody envC2 baseSnapshot emptyCore).1.requests.map
        (fun r => (r.image, r.strength)) =
      [(some "DOC", some ((baseSnapshot.strength : Rat) / 100))] ∧
    ((baseSnapshot.strength : Rat) / 100) = 1 := by
  refine ⟨rfl, rfl, ?_⟩
  norm_num [baseSnapshot]

/-- C2 as amended: strength < 100 always attaches image and strength,
with strength equal to snapshot.strength / 100; strength = 100 attaches
the pair exactly when a selection mask was captured (inpaint), and omits
it otherwise; the inpaint mask rides along as captured; and in refine mode
the document capture step always supplies an image. -/
theorem claim_C2_request_threshold (env : JobEnv) (snapshot : GenerationSnapshot)
    (maskBase64 imageBase64 : Option String)
    (ctl : List ControlArg) (reg : List RegionArg) :
    (snapshot.strength < 100 →
      (submittedRequest env snapshot maskBase64 imageBase64 ctl reg).image
          = imageBase64 ∧
      (submittedRequest env snapshot maskBase64 imageBase64 ctl reg).strength
          = some ((snapshot.strength : Rat) / 100)) ∧
    (100 ≤ snapshot.strength → strTruthy maskBase64 = false →
      (submittedRequest env snapshot maskBase64 imageBase64 ctl reg).image = none ∧
      (submittedRequest env snapshot maskBase64 imageBase64 ctl reg).strength = none) ∧
    (100 ≤ snapshot.strength → strTruthy maskBase64 = true →
      (submittedRequest env snapshot maskBase64 imageBase64 ctl reg).image
          = imageBase64 ∧
      (submittedRequest env snapshot maskBase64 imageBase64 ctl reg).strength
          = some ((snapshot.strength : Rat) / 100)) ∧
    (submittedRequest env snapshot maskBase64 imageBase64 ctl reg).mask
        = orUndefined maskBase64 ∧
    (∀ r, captureDocumentIfNeeded env true maskBase64 = .ok r → r ≠ none) := by
  refine ⟨?_, ?_, ?_, rfl, ?_⟩
  · intro hs
    constructor <;> simp [submittedRequest, hs]
  · intro hs hm
    have hns : ¬snapshot.strength < 100 := by omega
    constructor <;> simp [submittedRequest, hns, hm]
  · intro hs hm
    have hns : ¬snapshot.strength < 100 := by omega
    constructor <;> simp [submittedRequest, hns, hm]
  · intro r h
    unfold captureDocumentIfNeeded at h
    simp only [Bool.true_or, if_true] at h
    rcases hd : env.documentImage with e | img <;> rw [hd] at h
    · exact absurd h (by simp)
    · simp only [Except.ok.injEq] at h
      subst h
      simp

def snapRefine : GenerationSnapshot := { baseSnapshot with strength := 50 }

/-- Witness for C2 as amended, at strength 50 in refine mode. -/
theorem claim_C2_witness :
    (submittedRequest baseEnv snapRefine none (some "DOC") [] []).image
        = some "DOC" ∧
    (submittedRequest baseEnv snapRefine none (some "DOC") [] []).strength
        = some ((snapRefine.strength : Rat) / 100) :=
  (claim_C2_request_threshold baseEnv snapRefine none (some "DOC") [] []).1 (by decide)

/-- A job that is interrupted and has produced no images. -/
def envC4 : JobEnv :=
  { baseEnv with pollEvents := [.statusResult .interrupted], jobImages := .ok ([], []) }

def cC4State : CoreState := (runJobBody envC4 baseSnapshot emptyCore).1

/-- C4 counterexample: an interrupted job is NOT treated as a clean stop:
the result fetch still runs, its empty image list raises the alert
Generation failed: No images generated, and the pending queue item is not
dequeued — contradicting the claim that no error is raised and that queue
advancement happens as on success. -/
theorem claim_C4_counterexample :
    runJobBody envC4 baseSnapshot emptyCore = (cC4State, .halted) ∧
    cC4State.alerts = ["Generation failed: No images generated"] ∧
    cC4State.history = [] ∧
    runGeneration (fun _ => envC4) 0 baseSnapshot ⟨emptyCore, [itemA]⟩ =
      { core := cC4State, queue := [itemA] } := by
  refine ⟨rfl, by decide, by decide, ?_⟩
  exact runGeneration_halted (fun _ => envC4) 0 baseSnapshot ⟨emptyCore, [itemA]⟩
    cC4State (by decide) rfl

/-- C4 as amended: interrupted exits the poll loop exactly like finished
(without even touching progress), and the orchestrator then proceeds to
the result fetch as on finished: zero images raise No images generated,
one or more images complete the job normally. -/
theorem claim_C4_interrupted_like_finished (jid : String) (rest : List PollEvent) (c : CoreState)
    (env : JobEnv) (snapshot : GenerationSnapshot) (cp : CoreState)
    (imgs : List String) (seeds : List Int)
    (h : env.jobImages = .ok (imgs, seeds)) :
    pollLoop jid (PollEvent.statusResult JobStatus.interrupted :: rest) c =
      (.finishedLoop, c) ∧
    pollLoop jid (PollEvent.statusResult JobStatus.finished :: rest) c =
      (.finishedLoop, setProgress 1 "Fetching images..." c) ∧
    (imgs = [] →
      fetchAndRecord env jid snapshot cp = .thrown cp "No images generated") ∧
    (imgs ≠ [] → ∃ c2, fetchAndRecord env jid snapshot cp = .ok c2 .completed) := by
  refine ⟨rfl, rfl, ?_, ?_⟩
  · intro he
    subst he
    unfold fetchAndRecord
    rw [h]
    simp
  · intro hne
    have hz : ¬imgs.length = 0 := by simpa using hne
    refine ⟨{ setProgress 1 "Done!" { cp with history := addGenerationResult (mkHistoryGroup jid env snapshot imgs seeds) cp.history } with currentJob := none }, ?_⟩
    unfold fetchAndRecord
    rw [h]
    simp [hz]

/-- Witness for C4 as amended: a fetch with one image completes. -/
theorem claim_C4_witness :
    ∃ c2, fetchAndRecord baseEnv "job-1" baseSnapshot emptyCore = .ok c2 .completed :=
  (claim_C4_interrupted_like_finished "job-1" [] emptyCore baseEnv baseSnapshot emptyCore
    ["IMG"] [11] rfl).2.2.2 (by decide)

/-- A list is a prefix of itself. -/
theorem isPrefixOf_self (l : List Char) : l.isPrefixOf l = true := by
  induction l with
  | nil => rfl
  | cons c cs ih => simp [List.isPrefixOf, ih]

/-- Replacing the first occurrence of pat inside pat itself yields rep. -/
theorem replaceFirstChars_self (pat rep : List Char) :
    replaceFirstChars pat rep pat = rep := by
  cases pat with
  | nil => simp [replaceFirstChars]
  | cons c cs =>
      rw [replaceFirstChars, if_pos (isPrefixOf_self (c :: cs)), List.drop_length]
      simp

/-- Replacing the placeholder inside the bare placeholder yields the
replacement unchanged. -/
theorem replaceFirst_self (u : String) :
    replaceFirst promptPlaceholder promptPlaceholder u = u := by
  show String.mk (replaceFirstChars promptPlaceholder.data u.data promptPlaceholder.data) = u
  rw [replaceFirstChars_self]

/-- Modelled from the spec (claim wording): the prompt construction the
claim asserts — the style template with the user prompt substituted for
its placeholder. Compared against the applyStylePrompt of the source. -/
def stylePromptSpec (template user : String) : String :=
  replaceFirst template promptPlaceholder user

/-- A style whose prompt template is the empty string. -/
def styleEmptyTemplate : Style :=
  { id := "s1", name := "S", architecture := "sdxl", sampler := "Euler beta",
    cfg_scale := 5, steps := 30, style_prompt := "", negative_prompt := "bad",
    checkpoints := ["ck1"] }

def snapC7 : GenerationSnapshot := { baseSnapshot with style := some styleEmptyTemplate }

/-- C7 counterexample: with a selected style whose template is empty, the
submitted prompt is the user prompt unchanged (a cat), while the template
with the user prompt substituted for its placeholder is the empty string —
so the claimed prompt construction does not hold as stated. -/
theorem claim_C7_counterexample :
    snapC7.useStyleDefaults = true ∧
    snapC7.style = some styleEmptyTemplate ∧
    (runJobBody baseEnv snapC7 emptyCore).1.requests.map (fun r => r.prompt)
      = ["a cat"] ∧
    stylePromptSpec styleEmptyTemplate.style_prompt snapC7.prompt = "" ∧
    ("a cat" : String) ≠ "" := by
  exact ⟨rfl, rfl, rfl, rfl, by decide⟩

/-- C7 as amended: with a selected style and useStyleDefaults set, the
request takes sampler, scheduler, steps, cfg_scale and model (checkpoint)
from the style; the prompt is the template with the user prompt
substituted for its placeholder except that an empty template yields the
user prompt unchanged; and the negative prompt is the style negative
followed by a comma and the user negative when both are nonempty, and is
the other one verbatim (no comma) when either is empty. -/
theorem claim_C7_style_overrides (env : JobEnv) (snapshot : GenerationSnapshot)
    (st : Style) (maskBase64 imageBase64 : Option String)
    (ctl : List ControlArg) (reg : List RegionArg)
    (hstyle : snapshot.style = some st)
    (hdef : snapshot.useStyleDefaults = true) :
    (submittedRequest env snapshot maskBase64 imageBase64 ctl reg).sampler
        = (resolveStyleSampler st.sampler).sampler ∧
    (submittedRequest env snapshot maskBase64 imageBase64 ctl reg).scheduler
        = (resolveStyleSampler st.sampler).scheduler ∧
    (submittedRequest env snapshot maskBase64 imageBase64 ctl reg).steps = st.steps ∧
    (submittedRequest env snapshot maskBase64 imageBase64 ctl reg).cfg_scale
        = st.cfg_scale ∧
    (submittedRequest env snapshot maskBase64 imageBase64 ctl reg).model
        = getStyleCheckpoint st ∧
    (st.style_prompt ≠ "" →
        (submittedRequest env snapshot maskBase64 imageBase64 ctl reg).prompt
          = stylePromptSpec st.style_prompt snapshot.prompt) ∧
    (st.style_prompt = "" →
        (submittedRequest env snapshot maskBase64 imageBase64 ctl reg).prompt
          = snapshot.prompt) ∧
    (st.negative_prompt ≠ "" → snapshot.negativePrompt ≠ "" →
        (submittedRequest env snapshot maskBase64 imageBase64 ctl reg).negative_prompt
          = st.negative_prompt ++ ", " ++ snapshot.negativePrompt) ∧
    (st.negative_prompt = "" →
        (submittedRequest env snapshot maskBase64 imageBase64 ctl reg).negative_prompt
          = snapshot.negativePrompt) ∧
    (snapshot.negativePrompt = "" →
        (submittedRequest env snapshot maskBase64 imageBase64 ctl reg).negative_prompt
          = st.negative_prompt) := by
  have hn : (submittedRequest env snapshot maskBase64 imageBase64 ctl reg).negative_prompt
      = mergeNegativePrompts st.negative_prompt snapshot.negativePrompt := by
    show resolveFinalNegative snapshot = _
    unfold resolveFinalNegative
    rw [hstyle]
  refine ⟨?_, ?_, ?_, ?_, ?_, ?_, ?_, ?_, ?_, ?_⟩
  · show resolveFinalSampler snapshot = _
    unfold resolveFinalSampler
    rw [hstyle, hdef]
    simp
  · show resolveFinalScheduler snapshot = _
    unfold resolveFinalScheduler
    rw [hstyle, hdef]
    simp
  · show resolveFinalSteps snapshot = _
    unfold resolveFinalSteps
    rw [hstyle, hdef]
    simp
  · show resolveFinalCfgScale snapshot = _
    unfold resolveFinalCfgScale
    rw [hstyle, hdef]
    simp
  · show resolveCheckpoint snapshot = _
    unfold resolveCheckpoint
    rw [hstyle]
  · intro hne
    show resolveFinalPrompt snapshot = _
    unfold resolveFinalPrompt
    rw [hstyle]
    by_cases hpl : st.style_prompt = promptPlaceholder
    · simp only [applyStylePrompt, stylePromptSpec, hpl]
      rw [replaceFirst_self]
      simp
    · simp [applyStylePrompt, stylePromptSpec, hne, hpl]
  · intro he
    show resolveFinalPrompt snapshot = _
    unfold resolveFinalPrompt
    rw [hstyle]
    simp [applyStylePrompt, he]
  · intro h1 h2
    rw [hn]
    simp [mergeNegativePrompts, h1, h2]
  · intro h1
    rw [hn]
    simp [mergeNegativePrompts, h1]
  · intro h2
    rw [hn]
    simp only [mergeNegativePrompts, h2]
    split <;> simp_all

/-- A style with a nonempty template containing the placeholder. -/
def styleFull : Style :=
  { id := "s2", name := "S2", architecture := "sdxl", sampler := "Euler beta",
    cfg_scale := 5, steps := 30, style_prompt := "photo of \x7bprompt\x7d, hd",
    negative_prompt := "bad", checkpoints := ["ck1"] }

def snapC7w : GenerationSnapshot := { baseSnapshot with style := some styleFull }

/-- Witness for C7 as amended at a concrete style: sampler override,
placeholder substitution, and the comma-free negative prompt when the
user negative is empty. -/
theorem claim_C7_witness :
    (submittedRequest baseEnv snapC7w none none [] []).sampler
        = (resolveStyleSampler styleFull.sampler).sampler ∧
    (submittedRequest baseEnv snapC7w none none [] []).prompt
        = stylePromptSpec styleFull.style_prompt snapC7w.prompt ∧
    (submittedRequest baseEnv snapC7w none none [] []).negative_prompt
        = styleFull.negative_prompt :=
  ⟨(claim_C7_style_overrides baseEnv snapC7w styleFull none none [] [] rfl rfl).1,
   (claim_C7_style_overrides baseEnv snapC7w styleFull none none [] [] rfl rfl).2.2.2.2.2.1
     (by decide),
   (claim_C7_style_overrides baseEnv snapC7w styleFull none none
     [] [] rfl rfl).2.2.2.2.2.2.2.2.2 rfl⟩

/-- Two enabled control layers bound to Photoshop layers 1 and 2. -/
def ctlLayer1 : ControlLayer :=
  { id := "c1", mode := "canny", layerId := some 1, layerName := "L1",
    image := none, strength := 1, rangeStart := none, rangeEnd := none,
    isEnabled := true, isPreprocessor := true }

def ctlLayer2 : ControlLayer :=
  { ctlLayer1 with id := "c2", layerId := some 2, layerName := "L2" }

def snapC9 : GenerationSnapshot :=
  { baseSnapshot with controlLayers := [ctlLayer1, ctlLayer2] }

/-- An environment in which capturing Photoshop layer 1 throws. -/
def envC9 : JobEnv :=
  { baseEnv with layerImage := fun i => if i = 1 then .error "x" else .ok "LIMG" }

/-- C9 counterexample: with two enabled control layers where only the
first capture fails, the WHOLE job aborts (no request is submitted at
all, and the named failure surfaces as the job error) — so a control layer
capture failure is not contained to that layer, contradicting the claim
that only that layer is aborted; there is no optional flag on layers. -/
theorem claim_C9_counterexample :
    (runJobBody envC9 snapC9 emptyCore).2 = RunOutcome.halted ∧
    (runJobBody envC9 snapC9 emptyCore).1.alerts =
      ["Generation failed: Failed to process control layer \"L1\""] ∧
    (runJobBody envC9 snapC9 emptyCore).1.requests = [] := by
  exact ⟨by decide, by decide, by decide⟩

/-- A failing control layer capture turns the whole control fold into the
named error for that layer, provided the layers before it captured. -/
theorem processControlLayers_fail_aux (env : JobEnv) (l : ControlLayer)
    (post : List ControlLayer) (e : String)
    (he : captureControlImage env l = .error e) :
    ∀ (pre : List ControlLayer) (acc : List ControlArg),
      (∀ x ∈ pre, ∃ img, captureControlImage env x = .ok img) →
      List.foldlM (controlLayerStep env) acc (pre ++ l :: post) =
        .error ("Failed to process control layer \"" ++ l.layerName ++ "\"") := by
  intro pre
  induction pre with
  | nil =>
      intro acc _
      rw [List.nil_append, List.foldlM_cons]
      have hstep : controlLayerStep env acc l =
          .error ("Failed to process control layer \"" ++ l.layerName ++ "\"") := by
        unfold controlLayerStep
        rw [he]
      rw [hstep]
      rfl
  | cons x xs ih =>
      intro acc hok
      obtain ⟨img, hx⟩ := hok x (List.mem_cons_self x xs)
      rw [List.cons_append, List.foldlM_cons]
      have hstep : controlLayerStep env acc x =
          .ok (acc ++ [{ mode := mapControlMode x.mode, image := img,
                         strength := x.strength,
                         rangeStart := x.rangeStart.getD 0,
                         rangeEnd := x.rangeEnd.getD 1,
                         preprocessor := x.isPreprocessor }]) := by
        unfold controlLayerStep
        rw [hx]
      rw [hstep]
      exact ih _ (fun y hy => hok y (List.mem_cons_of_mem x hy))

/-- A region whose mask resolves to null or empty contributes nothing:
the region fold behaves as if the region were absent. -/
theorem processRegions_skip_aux (env : JobEnv) (r : Region) (post : List Region)
    (m : Option String) (b : Option RegionBounds)
    (hr : captureRegionMask env r = .ok (m, b)) (hm : strTruthy m = false) :
    ∀ (pre : List Region) (acc : List RegionArg),
      List.foldlM (regionStep env) acc (pre ++ r :: post) =
        List.foldlM (regionStep env) acc (pre ++ post) := by
  have hstep : ∀ acc, regionStep env acc r = pure acc := by
    intro acc
    unfold regionStep
    rw [hr]
    cases m with
    | none => rfl
    | some s =>
        have hs : s = "" := by simpa [strTruthy] using hm
        subst hs
        rfl
  intro pre
  induction pre with
  | nil =>
      intro acc
      rw [List.nil_append, List.nil_append, List.foldlM_cons, hstep]
      rfl
  | cons x xs ih =>
      intro acc
      rw [List.cons_append, List.cons_append, List.foldlM_cons, List.foldlM_cons]
      cases hx : regionStep env acc x with
      | error e => rfl
      | ok acc2 => exact ih acc2

/-- C9 as amended: a control layer capture failure is reported as the
named failure for that layer and aborts the whole job (every thrown error
reaches the catch block and halts); a region with no capturable mask is
skipped while the rest of the job proceeds unchanged. -/
theorem claim_C9_capture_failures :
    (∀ (env : JobEnv) (l : ControlLayer) (pre post : List ControlLayer) (e : String),
        captureControlImage env l = .error e →
        (∀ x ∈ pre, ∃ img, captureControlImage env x = .ok img) →
        processControlLayers env (pre ++ l :: post) =
          .error ("Failed to process control layer \"" ++ l.layerName ++ "\"")) ∧
    (∀ (env : JobEnv) (snapshot : GenerationSnapshot) (c0 c1 : CoreState) (m : String),
        env.hasActiveDocument = true →
        tryGenerate env snapshot (startCore c0) = .thrown c1 m →
        runJobBody env snapshot c0 = (catchCore c1 m, .halted)) ∧
    (∀ (env : JobEnv) (r : Region) (pre post : List Region)
        (m : Option String) (b : Option RegionBounds),
        captureRegionMask env r = .ok (m, b) → strTruthy m = false →
        processRegions env (pre ++ r :: post) = processRegions env (pre ++ post)) := by
  refine ⟨?_, ?_, ?_⟩
  · intro env l pre post e he hok
    exact processControlLayers_fail_aux env l post e he pre [] hok
  · intro env snapshot c0 c1 m hdoc h
    exact runJobBody_of_thrown env snapshot c0 c1 m hdoc h
  · intro env r pre post m b hr hm
    exact processRegions_skip_aux env r post m b hr hm pre []

/-- A visible region with no cached mask and no selection to capture. -/
def regionNoMask : Region :=
  { id := "r1", name := "R1", prompt := "sky", layerId := none,
    maskSource := .selection, maskBase64 := none, bounds := none, isVisible := true }

def regionWithMask : Region :=
  { regionNoMask with
    id := "r2", name := "R2", prompt := "sea", maskBase64 := some "RMASK" }

/-- Witness for C9 as amended at two concrete layers and two regions. -/
theorem claim_C9_witness :
    processControlLayers envC9 [ctlLayer1, ctlLayer2] =
      .error "Failed to process control layer \"L1\"" ∧
    processRegions baseEnv [regionNoMask, regionWithMask] =
      processRegions baseEnv [regionWithMask] :=
  ⟨(claim_C9_capture_failures.1 envC9 ctlLayer1 [] [ctlLayer2] "x" rfl (by simp)),
   (claim_C9_capture_failures.2.2 baseEnv regionNoMask [] [regionWithMask] none none rfl rfl)⟩

end Psai
